import Mathlib

/-!
Verification development for the `Pancho/poloniex` client
(`src/poloniex/poloniex.py`).

The embedding models, faithfully to the Python source:
* the private-API request signer `__prepare_request_data` (nonce insertion,
  `urllib.parse.urlencode`, HMAC-SHA512 over the encoded bytes, hex digest);
* the credential loader `__get_credentials` (three-format fallback) and the
  constructor checks of `Poloniex.__init__`;
* the WebSocket push normalizers (`ticker_wrapper`, `order_book_wrapper`),
  including exact-decimal parsing of numeric strings and the
  `%Y-%m-%d %H:%M:%S` date format of `datetime.strptime`;
* the parameter dictionaries of the public REST methods `trade_history`,
  `chart_data` and `loan_orders`.

Machine words are `Nat` with explicit reduction modulo `2 ^ 64`; byte strings
are `List Nat` of byte values; Python `decimal.Decimal` values are embedded by
their exact rational value in `ℚ`; fallible conversions return `Option` or
`Except`; the clock reading `time.time()` is an explicit rational input.
-/

set_option maxRecDepth 100000
set_option maxHeartbeats 8000000

namespace Poloniex

/-- Python runtime values that flow through the parameter dictionaries and
push messages of the source: strings and integers suffice for the code under
study. -/
inductive PyVal where
  | str (s : String)
  | int (n : Int)
deriving DecidableEq, Repr

/-- Python `==` on the embedded values: equal only within one type, and a
comparison across types (`str` against `int`) is `False`. -/
def pyEq : PyVal → PyVal → Bool
  | .str a, .str b => a == b
  | .int a, .int b => a == b
  | _, _ => false

/-- Python `str()` of an embedded value, as `urllib.parse.urlencode` applies
it to each key and value. -/
def pyStr : PyVal → String
  | .str s => s
  | .int n => toString n

/-- A Python `dict` with `str` keys, by its insertion-ordered key/value
sequence (CPython dicts preserve insertion order, and `urlencode` iterates
them in that order). Keys are unique, as they are in a dict. -/
abbrev Params : Type := List (String × PyVal)

/-- Python `d[k] = v`: replaces the value of the (unique) entry at the key in
place, keeping its position; appends a new entry at the end otherwise, as
insertion into a CPython dict does. -/
def dictSet (d : Params) (k : String) (v : PyVal) : Params :=
  match d with
  | [] => [(k, v)]
  | p :: rest => if p.1 == k then (k, v) :: rest else p :: dictSet rest k v

/-- Python `d.get(k)`: the value at the key, or `none` for Python `None`. -/
def dictGet (d : Params) (k : String) : Option PyVal :=
  match d with
  | [] => none
  | p :: rest => if p.1 == k then some p.2 else dictGet rest k

/-! ## UTF-8 and URL encoding -/

/-- The UTF-8 bytes of one character. -/
def utf8Bytes (c : Char) : List Nat :=
  let n := c.toNat
  if n < 128 then [n]
  else if n < 2048 then [192 + n / 64, 128 + n % 64]
  else if n < 65536 then [224 + n / 4096, 128 + (n / 64) % 64, 128 + n % 64]
  else [240 + n / 262144, 128 + (n / 4096) % 64, 128 + (n / 64) % 64, 128 + n % 64]

/-- The UTF-8 byte string of a Python `str`, as `.encode('utf8')` yields it. -/
def strBytes (s : String) : List Nat :=
  (s.data.map utf8Bytes).flatten

/-- The characters `urllib.parse.quote_plus` leaves unescaped (with the
`safe=''` that `urlencode` passes): ASCII alphanumerics and `_`, `.`, `-`,
`~`. -/
def quoteSafe (b : Nat) : Bool :=
  (48 ≤ b && b ≤ 57) || (65 ≤ b && b ≤ 90) || (97 ≤ b && b ≤ 122) ||
    b == 95 || b == 46 || b == 45 || b == 126

/-- Upper-case hex digit of a value below 16, as percent-escapes use. -/
def hexUpper (n : Nat) : Char :=
  if n < 10 then Char.ofNat (48 + n) else Char.ofNat (55 + n)

/-- How `quote_plus` renders one UTF-8 byte: space becomes `+`, a safe byte
stands for itself, anything else is a `%XX` escape. -/
def quotePlusByte (b : Nat) : String :=
  if b == 32 then "+"
  else if quoteSafe b then String.singleton (Char.ofNat b)
  else String.mk ['%', hexUpper (b / 16 % 16), hexUpper (b % 16)]

/-- `urllib.parse.quote_plus` on a string. -/
def quotePlus (s : String) : String :=
  String.join ((strBytes s).map quotePlusByte)

/-- `urllib.parse.urlencode` on a parameter dict: `k=v` pairs joined by `&`,
keys and stringified values passed through `quote_plus`, in the dict's
insertion order. -/
def urlencode (d : Params) : String :=
  String.intercalate "&" (d.map (fun p => quotePlus p.1 ++ "=" ++ quotePlus (pyStr p.2)))

/-! ## SHA-512 and HMAC

A direct embedding of FIPS 180-4 SHA-512 on byte lists, enough to compute
`hmac.new(secret, encoded_params, hashlib.sha512).hexdigest()` exactly. -/

/-- Truncation of a word to 64 bits. -/
def mask64 : Nat := 2 ^ 64 - 1

/-- Right rotation of a 64-bit word. -/
def rotr64 (n x : Nat) : Nat :=
  ((x >>> n) ||| (x <<< (64 - n))) &&& mask64

/-- SHA-512 big sigma 0. -/
def bSig0 (x : Nat) : Nat := rotr64 28 x ^^^ rotr64 34 x ^^^ rotr64 39 x

/-- SHA-512 big sigma 1. -/
def bSig1 (x : Nat) : Nat := rotr64 14 x ^^^ rotr64 18 x ^^^ rotr64 41 x

/-- SHA-512 small sigma 0. -/
def sSig0 (x : Nat) : Nat := rotr64 1 x ^^^ rotr64 8 x ^^^ (x >>> 7)

/-- SHA-512 small sigma 1. -/
def sSig1 (x : Nat) : Nat := rotr64 19 x ^^^ rotr64 61 x ^^^ (x >>> 6)

/-- SHA-512 choice function. -/
def shaCh (x y z : Nat) : Nat := (x &&& y) ^^^ ((mask64 ^^^ x) &&& z)

/-- SHA-512 majority function. -/
def shaMaj (x y z : Nat) : Nat := (x &&& y) ^^^ (x &&& z) ^^^ (y &&& z)

/-- The 80 SHA-512 round constants (FIPS 180-4, section 4.2.3: the first 64
bits of the fractional parts of the cube roots of the first 80 primes),
written in decimal. -/
def shaK : List Nat := [
  4794697086780616226, 8158064640168781261, 13096744586834688815, 16840607885511220156,
  4131703408338449720, 6480981068601479193, 10538285296894168987, 12329834152419229976,
  15566598209576043074, 1334009975649890238, 2608012711638119052, 6128411473006802146,
  8268148722764581231, 9286055187155687089, 11230858885718282805, 13951009754708518548,
  16472876342353939154, 17275323862435702243, 1135362057144423861, 2597628984639134821,
  3308224258029322869, 5365058923640841347, 6679025012923562964, 8573033837759648693,
  10970295158949994411, 12119686244451234320, 12683024718118986047, 13788192230050041572,
  14330467153632333762, 15395433587784984357, 489312712824947311, 1452737877330783856,
  2861767655752347644, 3322285676063803686, 5560940570517711597, 5996557281743188959,
  7280758554555802590, 8532644243296465576, 9350256976987008742, 10552545826968843579,
  11727347734174303076, 12113106623233404929, 14000437183269869457, 14369950271660146224,
  15101387698204529176, 15463397548674623760, 17586052441742319658, 1182934255886127544,
  1847814050463011016, 2177327727835720531, 2830643537854262169, 3796741975233480872,
  4115178125766777443, 5681478168544905931, 6601373596472566643, 7507060721942968483,
  8399075790359081724, 8693463985226723168, 9568029438360202098, 10144078919501101548,
  10430055236837252648, 11840083180663258601, 13761210420658862357, 14299343276471374635,
  14566680578165727644, 15097957966210449927, 16922976911328602910, 17689382322260857208,
  500013540394364858, 748580250866718886, 1242879168328830382, 1977374033974150939,
  2944078676154940804, 3659926193048069267, 4368137639120453308, 4836135668995329356,
  5532061633213252278, 6448918945643986474, 6902733635092675308, 7801388544844847127]

/-- The initial SHA-512 hash value (FIPS 180-4, section 5.3.5: the first 64
bits of the fractional parts of the square roots of the first 8 primes),
written in decimal. -/
def shaH0 : List Nat := [
  7640891576956012808, 13503953896175478587, 4354685564936845355, 11912009170470909681,
  5840696475078001361, 11170449401992604703, 2270897969802886507, 6620516959819538809]

/-- Big-endian bytes of a number, fixed width. -/
def beBytes : Nat → Nat → List Nat
  | 0, _ => []
  | k + 1, n => beBytes k (n >>> 8) ++ [n &&& 255]

/-- SHA-512 padding: a 0x80 byte, zeros to 112 mod 128, then the bit length
in 16 big-endian bytes. -/
def shaPad (m : List Nat) : List Nat :=
  m ++ [128] ++ List.replicate ((240 - (m.length + 1) % 128) % 128) 0 ++
    beBytes 16 (8 * m.length)

/-- The big-endian 64-bit word starting at byte offset `i`. -/
def wordAt (m : List Nat) (i : Nat) : Nat :=
  (List.range 8).foldl (fun acc j => acc * 256 + m.getD (i + j) 0) 0

/-- The 80-word message schedule of the block at byte offset `off`. -/
def shaSchedule (m : List Nat) (off : Nat) : List Nat :=
  (List.range 64).foldl
    (fun w t =>
      w ++ [(sSig1 (w.getD (t + 14) 0) + w.getD (t + 9) 0 +
             sSig0 (w.getD (t + 1) 0) + w.getD t 0) % 2 ^ 64])
    ((List.range 16).map (fun j => wordAt m (off + 8 * j)))

/-- The eight working registers of the compression loop. -/
structure Regs where
  a : Nat
  b : Nat
  c : Nat
  d : Nat
  e : Nat
  f : Nat
  g : Nat
  h : Nat
deriving Repr

/-- One round of the SHA-512 compression function. -/
def shaRound (wt kt : Nat) (r : Regs) : Regs :=
  let t1 := (r.h + bSig1 r.e + shaCh r.e r.f r.g + kt + wt) % 2 ^ 64
  let t2 := (bSig0 r.a + shaMaj r.a r.b r.c) % 2 ^ 64
  ⟨(t1 + t2) % 2 ^ 64, r.a, r.b, r.c, (r.d + t1) % 2 ^ 64, r.e, r.f, r.g⟩

/-- Compression of one 128-byte block at offset `off` into the running hash
value (a list of eight 64-bit words). -/
def shaBlock (m : List Nat) (h : List Nat) (off : Nat) : List Nat :=
  let w := shaSchedule m off
  let r0 : Regs :=
    ⟨h.getD 0 0, h.getD 1 0, h.getD 2 0, h.getD 3 0,
     h.getD 4 0, h.getD 5 0, h.getD 6 0, h.getD 7 0⟩
  let r := (List.range 80).foldl (fun r t => shaRound (w.getD t 0) (shaK.getD t 0) r) r0
  [(h.getD 0 0 + r.a) % 2 ^ 64, (h.getD 1 0 + r.b) % 2 ^ 64,
   (h.getD 2 0 + r.c) % 2 ^ 64, (h.getD 3 0 + r.d) % 2 ^ 64,
   (h.getD 4 0 + r.e) % 2 ^ 64, (h.getD 5 0 + r.f) % 2 ^ 64,
   (h.getD 6 0 + r.g) % 2 ^ 64, (h.getD 7 0 + r.h) % 2 ^ 64]

/-- SHA-512 of a byte string, as 64 digest bytes. -/
def sha512 (m : List Nat) : List Nat :=
  let p := shaPad m
  let hF := (List.range (p.length / 128)).foldl (fun h b => shaBlock p h (128 * b)) shaH0
  (hF.map (beBytes 8)).flatten

/-- Lower-case hex digit of a value below 16. -/
def hexLower (n : Nat) : Char :=
  if n < 10 then Char.ofNat (48 + n) else Char.ofNat (87 + n)

/-- Lower-case hex rendering of a byte string, as `.hexdigest()` yields it. -/
def hexdigest (bs : List Nat) : String :=
  String.join (bs.map (fun b => String.mk [hexLower (b / 16 % 16), hexLower (b % 16)]))

/-- HMAC-SHA512 (RFC 2104) of a message under a key, as digest bytes;
the block size of SHA-512 is 128 bytes. -/
def hmacSha512 (key msg : List Nat) : List Nat :=
  let k0 := if 128 < key.length then sha512 key else key
  let k1 := k0 ++ List.replicate (128 - k0.length) 0
  sha512 ((k1.map (fun b => b ^^^ 92)) ++ sha512 ((k1.map (fun b => b ^^^ 54)) ++ msg))

/-! ## The request signer -/

/-- The credentials a client holds: the API key, and the secret as the UTF-8
byte string `__init__` produces once with `self.secret.encode('utf8')`. -/
structure Creds where
  api_key : String
  secret : List Nat
deriving DecidableEq, Repr

/-- Python `int(time.time() * 1000)` for a clock reading of `t` seconds
(embedded as an exact rational): the reading is nonnegative, so the
truncation of `int()` is the floor. -/
def nonceOf (t : ℚ) : Int := (1000 * t).floor

/-- The signer `__prepare_request_data`, the clock reading passed explicitly:
stores the fresh nonce under `params['nonce']`, URL-encodes the dict, and
returns the dict together with the `Sign` and `Key` headers in the order the
source writes them. -/
def prepare_request_data (c : Creds) (params : Params) (t : ℚ) :
    Params × List (String × String) :=
  let ps := dictSet params "nonce" (.int (nonceOf t))
  (ps, [("Sign", hexdigest (hmacSha512 c.secret (strBytes (urlencode ps)))),
        ("Key", c.api_key)])

/-- The `Sign` entry of the headers a signer call returned. -/
def hexSign (r : Params × List (String × String)) : Option String :=
  r.2.lookup "Sign"

/-- Demonstration credentials used for concrete signer evaluations. -/
def demoCreds : Creds := ⟨"key", strBytes "secret"⟩

/-- Demonstration parameter dict, as `balances` builds it. -/
def demoParams : Params := [("command", .str "returnBalances")]

/-- A parameter dict that already carries an externally fixed nonce. -/
def nonceParams : Params := [("command", .str "returnBalances"), ("nonce", .int 42)]

/-! ## Exact decimal parsing

`decimal.Decimal(s)` parses a numeric string into an exact decimal value; the
embedding returns that value as a rational. The grammar is the finite part of
the decimal specification: optional surrounding whitespace, an optional sign,
an integer and/or fractional digit part, and an optional exponent. The
non-finite literals (`Infinity`, `NaN`) denote no rational, and digit-grouping
underscores are not modelled; no string of the code under study uses either. -/

/-- Leading decimal digits of a character list, with the rest. -/
def takeDigits : List Char → List Nat × List Char
  | [] => ([], [])
  | c :: cs =>
    if 48 ≤ c.toNat && c.toNat ≤ 57 then
      let (ds, rest) := takeDigits cs
      ((c.toNat - 48) :: ds, rest)
    else ([], c :: cs)

/-- The number a digit list denotes. -/
def digitsVal (ds : List Nat) : Nat := ds.foldl (fun a d => 10 * a + d) 0

/-- An optional leading sign; `true` means negative. -/
def takeSign : List Char → Bool × List Char
  | '-' :: cs => (true, cs)
  | '+' :: cs => (false, cs)
  | cs => (false, cs)

/-- The exact rational value of a decimal with the given sign, coefficient
and exponent, the value being `coeff * 10 ^ e` up to sign. -/
def decValue (neg : Bool) (coeff : Nat) (e : Int) : ℚ :=
  let mag : ℚ :=
    if 0 ≤ e then (coeff : ℚ) * (10 : ℚ) ^ e.toNat
    else (coeff : ℚ) / (10 : ℚ) ^ (-e).toNat
  if neg then -mag else mag

/-- The optional exponent part and end of string: empty, or `e`/`E`, an
optional sign and at least one digit. -/
def parseExp : List Char → Option Int
  | [] => some 0
  | c :: cs =>
    if c = 'e' ∨ c = 'E' then
      let (eneg, cs1) := takeSign cs
      let (ds, cs2) := takeDigits cs1
      if ds.isEmpty ∨ ¬cs2.isEmpty then none
      else some (if eneg then -(digitsVal ds : Int) else (digitsVal ds : Int))
    else none

/-- `decimal.Decimal` on a string: the exact rational value, or `none` when
the string is malformed (Python raises `InvalidOperation`). -/
def parseDecimal (s : String) : Option ℚ :=
  let cs := (s.data.dropWhile Char.isWhitespace).reverse.dropWhile Char.isWhitespace |>.reverse
  let (neg, cs1) := takeSign cs
  let (ip, cs2) := takeDigits cs1
  match cs2 with
  | '.' :: cs3 =>
    let (fp, cs4) := takeDigits cs3
    if ip.isEmpty && fp.isEmpty then none
    else (parseExp cs4).map (fun e => decValue neg (digitsVal (ip ++ fp)) (e - fp.length))
  | rest =>
    if ip.isEmpty then none
    else (parseExp rest).map (fun e => decValue neg (digitsVal ip) e)

/-- `decimal.Decimal` applied to a value `d.get(k)` returned: a string is
parsed, an int is exact already, and Python `None` (a missing key) raises
`TypeError`, embedded as `none`. -/
def pyDecimal : Option PyVal → Option ℚ
  | some (.str s) => parseDecimal s
  | some (.int n) => some (n : ℚ)
  | none => none

/-! ## Dates: `datetime.strptime(s, '%Y-%m-%d %H:%M:%S')`

Each directive is parsed exactly as CPython's `_strptime` regular expression
fragment matches it, and the resulting fields are validated as the
`datetime` constructor does (day within the month, second below 60). -/

/-- A parsed calendar date and time of day. -/
structure DateTime where
  year : Nat
  month : Nat
  day : Nat
  hour : Nat
  minute : Nat
  second : Nat
deriving DecidableEq, Repr

/-- Gregorian leap year, as `datetime` uses it. -/
def isLeap (y : Nat) : Bool :=
  (y % 4 == 0 && y % 100 != 0) || y % 400 == 0

/-- Days in a month of a year. -/
def daysInMonth (y m : Nat) : Nat :=
  if m = 2 then (if isLeap y then 29 else 28)
  else if m = 4 ∨ m = 6 ∨ m = 9 ∨ m = 11 then 30 else 31

/-- Digit value of a character, or none. -/
def digit? (c : Char) : Option Nat :=
  if 48 ≤ c.toNat && c.toNat ≤ 57 then some (c.toNat - 48) else none

/-- The `%Y` directive: exactly four digits. -/
def parseY : List Char → Option (Nat × List Char)
  | a :: b :: c :: d :: rest => do
    let x0 ← digit? a
    let x1 ← digit? b
    let x2 ← digit? c
    let x3 ← digit? d
    some (1000 * x0 + 100 * x1 + 10 * x2 + x3, rest)
  | _ => none

/-- A one-or-two-digit `strptime` directive, following CPython's regex
alternation for `%m`, `%d`, `%H`, `%M` and `%S`: a two-digit reading is
consumed when it is at most `maxTwo` (and nonzero unless `zeroOk`, matching
the `0[1-9]`-style alternatives of `%m` and `%d`); otherwise one digit is
consumed (a lone `0` only when `zeroOk`). The character following the
directive in the format is a non-digit, so the regex engine's backtracking
can never resurrect a combination this misses. -/
def parse2or1 (maxTwo : Nat) (zeroOk : Bool) : List Char → Option (Nat × List Char)
  | a :: b :: rest =>
    match digit? a, digit? b with
    | some x, some y =>
      let two := 10 * x + y
      if (zeroOk ∨ 1 ≤ two) ∧ two ≤ maxTwo then some (two, rest)
      else if zeroOk ∨ 1 ≤ x then some (x, b :: rest)
      else none
    | some x, none =>
      if zeroOk ∨ 1 ≤ x then some (x, b :: rest) else none
    | _, _ => none
  | [a] => do
    let x ← digit? a
    if zeroOk ∨ 1 ≤ x then some (x, []) else none
  | [] => none

/-- One or more whitespace characters, as a literal blank in a `strptime`
format matches. -/
def parseWs : List Char → Option (List Char)
  | c :: rest => if c.isWhitespace then some (rest.dropWhile Char.isWhitespace) else none
  | [] => none

/-- A literal character. -/
def parseLit (l : Char) : List Char → Option (List Char)
  | c :: rest => if c = l then some rest else none
  | [] => none

/-- `datetime.strptime(s, '%Y-%m-%d %H:%M:%S')`: the parsed date, or `none`
when Python raises `ValueError` (a directive fails to match, data remains
unconverted, or the `datetime` constructor rejects a field). -/
def strptimeYmdHms (s : String) : Option DateTime := do
  let (y, r1) ← parseY s.data
  let r2 ← parseLit '-' r1
  let (mo, r3) ← parse2or1 12 false r2
  let r4 ← parseLit '-' r3
  let (d, r5) ← parse2or1 31 false r4
  let r6 ← parseWs r5
  let (h, r7) ← parse2or1 23 true r6
  let r8 ← parseLit ':' r7
  let (mi, r9) ← parse2or1 59 true r8
  let r10 ← parseLit ':' r9
  let (sec, r11) ← parse2or1 61 true r10
  if ¬r11.isEmpty then none
  else if y = 0 then none
  else if d > daysInMonth y mo then none
  else if sec > 59 then none
  else some ⟨y, mo, d, h, mi, sec⟩

/-- `strptime` applied to a value `d.get('date')` returned: only a string
parses; Python `None` raises `TypeError`, embedded as `none`. -/
def pyStrptime : Option PyVal → Option DateTime
  | some (.str s) => strptimeYmdHms s
  | _ => none

/-! ## The ticker normalizer (`attach_ticker`) -/

/-- The named record the ticker callback receives. -/
structure TickerRecord where
  currency_pair : PyVal
  last : ℚ
  lowest_ask : ℚ
  highest_bid : ℚ
  change : ℚ
  base_volume : ℚ
  quote_volume : ℚ
  is_frozen : Bool
  high : ℚ
  low : ℚ
deriving DecidableEq, Repr

/-- The conversion the inner `wrapper` of `attach_ticker` performs: the ten
positional push arguments become named fields, the eight price and volume
values parsed by `decimal.Decimal` into exact decimals, and `is_frozen`
computed as the source's `args[7] == 1`. A missing index (`IndexError`) or a
failed parse is an unhandled exception, embedded as `none`. -/
def tickerConvert (args : List PyVal) : Option TickerRecord := do
  let cp ← args[0]?
  let last ← pyDecimal args[1]?
  let la ← pyDecimal args[2]?
  let hb ← pyDecimal args[3]?
  let chg ← pyDecimal args[4]?
  let bv ← pyDecimal args[5]?
  let qv ← pyDecimal args[6]?
  let a7 ← args[7]?
  let hi ← pyDecimal args[8]?
  let lo ← pyDecimal args[9]?
  some ⟨cp, last, la, hb, chg, bv, qv, pyEq a7 (.int 1), hi, lo⟩

/-- `ticker_wrapper`: the user callback applied once to the converted
record. -/
def ticker_wrapper {R : Type} (cb : TickerRecord → R) (args : List PyVal) : Option R :=
  (tickerConvert args).map cb

/-- The fixed ticker push message of the round-trip property. -/
def tickerArgs : List PyVal :=
  [.str "BTC_ETH", .str "0.05", .str "0.051", .str "0.049", .str "0.01",
   .str "120.5", .str "2400.3", .int 0, .str "0.06", .str "0.04"]

/-! ## The order-book normalizer (`attach_order_book`) -/

/-- One raw order-book update entry: the value of the entry dict's `type`
key (the source compares it against the tag strings) and its `data` dict;
`none` embeds Python `None` from `.get` on a missing key. -/
structure BookEntry where
  ty : Option PyVal
  data : Option Params
deriving DecidableEq, Repr

/-- The source's `arg.get('type') == tag` comparison. -/
def entryTypeIs (e : BookEntry) (tag : String) : Bool :=
  match e.ty with
  | some v => pyEq v (.str tag)
  | none => false

/-- The blob built for an `orderBookModify` entry. -/
structure BookMod where
  amount : ℚ
  rate : ℚ
  ty : Option PyVal
deriving DecidableEq, Repr

/-- The blob built for an `orderBookRemove` entry. -/
structure BookRem where
  rate : ℚ
  ty : Option PyVal
deriving DecidableEq, Repr

/-- The blob built for an untagged entry, treated as a new trade. -/
structure BookTrade where
  tradeID : Option PyVal
  rate : ℚ
  amount : ℚ
  total : ℚ
  date : DateTime
  ty : Option PyVal
deriving DecidableEq, Repr

/-- The result of converting one order-book entry. -/
inductive BookItem where
  | mod (m : BookMod)
  | rem (r : BookRem)
  | trade (t : BookTrade)
deriving DecidableEq, Repr

/-- The loop body of the inner `wrapper` of `attach_order_book` on one
entry: dispatch on the entry's `type` tag, read the `data` dict's fields and
parse the numeric strings (and, for a trade, the date). `none` embeds the
unhandled exception — `AttributeError` on a `None` data dict,
`InvalidOperation`/`TypeError` on a malformed or missing numeric field,
`ValueError` on a malformed date — that aborts the whole batch. -/
def convEntry (e : BookEntry) : Option BookItem :=
  if entryTypeIs e "orderBookModify" then do
    let d ← e.data
    let amount ← pyDecimal (dictGet d "amount")
    let rate ← pyDecimal (dictGet d "rate")
    some (.mod ⟨amount, rate, dictGet d "type"⟩)
  else if entryTypeIs e "orderBookRemove" then do
    let d ← e.data
    let rate ← pyDecimal (dictGet d "rate")
    some (.rem ⟨rate, dictGet d "type"⟩)
  else do
    let d ← e.data
    let tid := dictGet d "tradeID"
    let rate ← pyDecimal (dictGet d "rate")
    let amount ← pyDecimal (dictGet d "amount")
    let total ← pyDecimal (dictGet d "total")
    let date ← pyStrptime (dictGet d "date")
    some (.trade ⟨tid, rate, amount, total, date, dictGet d "type"⟩)

/-- The loop of the inner `wrapper` over one batch: every entry converted in
arrival order and appended to the list of its kind; the first failing entry
aborts the batch. -/
def bookPartition :
    List BookEntry → Option (List BookMod × List BookRem × List BookTrade)
  | [] => some ([], [], [])
  | e :: es => do
    let it ← convEntry e
    let (ms, rs, ts) ← bookPartition es
    match it with
    | .mod m => some (m :: ms, rs, ts)
    | .rem r => some (ms, r :: rs, ts)
    | .trade t => some (ms, rs, t :: ts)

/-- `order_book_wrapper`: the caller's handler applied exactly once to the
three sequences and the trailing keyword metadata `**kwargs` (of type `K`),
or not at all when the batch aborts. -/
def order_book_wrapper {K R : Type}
    (cb : List BookMod → List BookRem → List BookTrade → K → R)
    (args : List BookEntry) (kwargs : K) : Option R :=
  (bookPartition args).map (fun p => cb p.1 p.2.1 p.2.2 kwargs)

/-- The modify entries of a batch, in arrival order, converted: the
specification's description of the first partition. -/
def modsOf (args : List BookEntry) : List BookMod :=
  (args.filter (fun e => entryTypeIs e "orderBookModify")).filterMap
    (fun e => (convEntry e).bind (fun it =>
      match it with | .mod m => some m | _ => none))

/-- The remove entries of a batch, in arrival order, converted. -/
def remsOf (args : List BookEntry) : List BookRem :=
  (args.filter (fun e =>
      !entryTypeIs e "orderBookModify" && entryTypeIs e "orderBookRemove")).filterMap
    (fun e => (convEntry e).bind (fun it =>
      match it with | .rem r => some r | _ => none))

/-- The untagged entries of a batch, in arrival order, converted as trades. -/
def tradesOf (args : List BookEntry) : List BookTrade :=
  (args.filter (fun e =>
      !entryTypeIs e "orderBookModify" && !entryTypeIs e "orderBookRemove")).filterMap
    (fun e => (convEntry e).bind (fun it =>
      match it with | .trade t => some t | _ => none))

/-- The order-book batch of the round-trip property: one modify, one remove
and one untagged trade entry. -/
def demoBatch : List BookEntry :=
  [⟨some (.str "orderBookModify"), some [("amount", .str "1.5"), ("rate", .str "0.05")]⟩,
   ⟨some (.str "orderBookRemove"), some [("rate", .str "0.04")]⟩,
   ⟨none, some [("tradeID", .str "77"), ("rate", .str "0.05"), ("amount", .str "1.5"),
                ("total", .str "0.075"), ("date", .str "2020-01-01 00:00:00")]⟩]

/-- The one modification the demonstration batch normalizes to. -/
def demoMods : List BookMod := [⟨3/2, 1/20, none⟩]

/-- The one removal the demonstration batch normalizes to. -/
def demoRems : List BookRem := [⟨1/25, none⟩]

/-- The one trade the demonstration batch normalizes to. -/
def demoTrades : List BookTrade :=
  [⟨some (.str "77"), 1/20, 3/2, 3/40, ⟨2020, 1, 1, 0, 0, 0⟩, none⟩]

/-- A batch whose second entry carries a date in the wrong format. -/
def badBatch : List BookEntry :=
  [⟨some (.str "orderBookModify"), some [("amount", .str "1.5"), ("rate", .str "0.05")]⟩,
   ⟨none, some [("tradeID", .str "78"), ("rate", .str "0.05"), ("amount", .str "1.5"),
                ("total", .str "0.075"), ("date", .str "01/01/2020 00:00")]⟩]

/-! ## The credential loader `__get_credentials`

The three on-disk formats are read through library parsers (`configparser`,
`json.loads`, `importlib`'s source loader), which are external collaborators;
a config file is therefore abstracted by the observable outcomes of the
three parse attempts on it, and the loader's own control flow — the order of
the attempts, the bare `except: pass` fallthroughs, the persistence of the
local variables across attempts, and the final combined error — is embedded
from the source. -/

/-- The parse outcomes of one config file. `iniApiKey`/`iniSecret` are the
results of `config_parser.get('CONFIG', ...)`, `none` embedding the
exception a missing file, unparsable content or a missing section/option
raises; `jsonDict` is `some (k, s)` when the content parses as a JSON
object, with `k`/`s` the `.get` results for `apiKey`/`secret` (`none` for a
missing key), and `none` when `open`/`json.loads` raises or the parsed value
is no object (its `.get` raises); `pyApiKey`/`pySecret` are the attributes
of the loaded source module, `none` embedding a load failure or a missing
attribute. -/
structure ConfigFile where
  iniApiKey : Option String
  iniSecret : Option String
  jsonDict : Option (Option String × Option String)
  pyApiKey : Option String
  pySecret : Option String
deriving DecidableEq, Repr

/-- The last lines of `__get_credentials`: once all three attempts fell
through, raise the combined configuration error when either local variable
is still `None`, return the leftovers otherwise. -/
def credsFinal (a s : Option String) :
    Except Unit (Option String × Option String) :=
  if a.isNone || s.isNone then .error () else .ok (a, s)

/-- The third attempt (Python source file): `config.api_key` is read before
`config.secret`, each raising when absent; a partial read persists in the
local variable. -/
def credsPy (f : ConfigFile) (a s : Option String) :
    Except Unit (Option String × Option String) :=
  match f.pyApiKey with
  | some k =>
    match f.pySecret with
    | some sec => .ok (some k, some sec)
    | none => credsFinal (some k) s
  | none => credsFinal a s

/-- The second attempt (JSON): when the file parses as a JSON object the
two `.get` results are returned as they are — `None` for a missing key
included, with no further fallback; otherwise the attempt's exception falls
through to the source-file attempt with the local variables unchanged. -/
def credsJson (f : ConfigFile) (a s : Option String) :
    Except Unit (Option String × Option String) :=
  match f.jsonDict with
  | some kv => .ok kv
  | none => credsPy f a s

/-- `__get_credentials`: INI first, then JSON, then the Python source file,
stopping at the first attempt that returns; the `api_key` of a partially
valid INI file persists into the later attempts' local state, as the
source's shared local variables do. -/
def getCredentials (f : ConfigFile) :
    Except Unit (Option String × Option String) :=
  match f.iniApiKey with
  | some k =>
    match f.iniSecret with
    | some s => .ok (some k, some s)
    | none => credsJson f (some k) none
  | none => credsJson f none none

/-! ## The constructor `Poloniex.__init__` -/

/-- The distinct failures construction can end in. -/
inductive InitError where
  | missingArgs
  | configError
  | attributeError
  | noCredentials
deriving DecidableEq, Repr

/-- A constructed client: the API key and the UTF-8-encoded secret. -/
structure Client where
  api_key : String
  secret : List Nat
deriving DecidableEq, Repr

/-- An ASCII whitespace byte, as `bytes.strip()` removes. -/
def isAsciiSpaceByte (b : Nat) : Bool :=
  b == 32 || b == 9 || b == 10 || b == 11 || b == 12 || b == 13

/-- Python `bytes.strip()`. -/
def bytesStrip (bs : List Nat) : List Nat :=
  ((bs.dropWhile isAsciiSpaceByte).reverse.dropWhile isAsciiSpaceByte).reverse

/-- Python `==` between a `bytes` value and a `str` value: always `False`,
whatever the contents. The check `self.secret.strip() == ''` in `__init__`
runs after `self.secret = self.secret.encode('utf8')`, so it is exactly this
cross-type comparison. -/
def pyEqBytesStr (_b : List Nat) (_s : String) : Bool := false

/-- `Poloniex.__init__` up to the endpoint assignments (no network activity
occurs anywhere in the constructor): the argument check, the credential
resolution (from the file's parse outcomes when a path is given, from the
arguments otherwise), `self.secret.encode('utf8')` — an `AttributeError`
when the resolved secret is `None` — and the final credential check, whose
two secret conditions can never fire (the secret is bytes by then: it is
not `None`, and `bytes == str` is always `False`). -/
def initPoloniex (cfg : Option ConfigFile) (api_key secret : Option String) :
    Except InitError Client :=
  if cfg.isNone && (api_key.isNone || secret.isNone) then .error .missingArgs
  else
    let creds : Except InitError (Option String × Option String) :=
      match cfg with
      | some f =>
        match getCredentials f with
        | .ok r => .ok r
        | .error _ => .error .configError
      | none => .ok (api_key, secret)
    match creds with
    | .error e => .error e
    | .ok (k, s) =>
      match s with
      | none => .error .attributeError
      | some sv =>
        let sb := strBytes sv
        if k.isNone then .error .noCredentials
        else if (k.getD "").trim == "" then .error .noCredentials
        else if pyEqBytesStr (bytesStrip sb) "" then .error .noCredentials
        else .ok ⟨k.getD "", sb⟩

/-- A config file that only parses as JSON, the object holding `apiKey`
alone. -/
def jsonOnlyFile : ConfigFile := ⟨none, none, some (some "k", none), none, none⟩

/-! ## The public REST methods of C9 -/

/-- The resource and parameter dict `trade_history` sends to the public
endpoint. -/
def trade_history_request (pair start fin : PyVal) : String × Params :=
  ("public", [("command", .str "returnOrderBook"), ("pair", pair),
              ("start", start), ("end", fin)])

/-- The resource and parameter dict `chart_data` sends to the public
endpoint. -/
def chart_data_request (pair start fin period : PyVal) : String × Params :=
  ("public", [("command", .str "returnOrderBook"), ("pair", pair),
              ("start", start), ("end", fin), ("period", period)])

/-- The resource and parameter dict `loan_orders` sends to the public
endpoint. -/
def loan_orders_request (currency : PyVal) : String × Params :=
  ("public", [("command", .str "returnLoanOrders"), ("currency", currency)])

/-! ## Sanity checks of the embedded primitives against published vectors -/

/-- FIPS 180-4 test vector: SHA-512 of "abc". -/
theorem sha512_abc :
    hexdigest (sha512 (strBytes "abc")) =
      "ddaf35a193617abacc417349ae20413112e6fa4e89a97ea20a9eeee64b55d39a2192992a274fc1a836ba3c23a3feebbd454d4423643ce80e2a9ac94fa54ca49f" := by
  decide

/-- RFC 4231 test case 2: HMAC-SHA512 with key "Jefe". -/
theorem hmac_jefe :
    hexdigest (hmacSha512 (strBytes "Jefe") (strBytes "what do ya want for nothing?")) =
      "164b7a7bfcf819e2e395fbe73b56e0a387bd64222e831fd610270cd7ea2505549758bf75c05a994a6d034f65f8f0e6fdcaeab1a34d4a6b4b636e070a38bce737" := by
  decide

/-- The embedded `urlencode` agrees with `urllib.parse.urlencode` on a
dict with escapes, a `+` for space and a stringified negative int. -/
theorem urlencode_example :
    urlencode [("a b", .str "c/d~e.f-g_h"), ("n", .int (-5))] = "a+b=c%2Fd~e.f-g_h&n=-5" := by
  decide

/-- The embedded `decimal.Decimal` on well-formed inputs, against CPython's
values. -/
theorem parseDecimal_examples :
    parseDecimal "0.05" = some (1/20) ∧
    parseDecimal "120.5" = some (241/2) ∧
    parseDecimal "2400.3" = some (24003/10) ∧
    parseDecimal "-1.5e-3" = some (-(3/2000)) ∧
    parseDecimal " 1.5 " = some (3/2) ∧
    parseDecimal "1." = some 1 ∧
    parseDecimal ".5" = some (1/2) := by
  refine ⟨?_, ?_, ?_, ?_, ?_, ?_, ?_⟩ <;> with_unfolding_all rfl

/-- The embedded `decimal.Decimal` on malformed inputs, against CPython's
`InvalidOperation` cases. -/
theorem parseDecimal_malformed_examples :
    parseDecimal "abc" = none ∧ parseDecimal "." = none ∧
    parseDecimal "1e" = none ∧ parseDecimal "" = none := by
  refine ⟨?_, ?_, ?_, ?_⟩ <;> with_unfolding_all rfl

/-- The embedded `strptime` against CPython's accept/reject behavior on the
format `%Y-%m-%d %H:%M:%S`. -/
theorem strptime_examples :
    strptimeYmdHms "2020-01-01 00:00:00" = some ⟨2020, 1, 1, 0, 0, 0⟩ ∧
    strptimeYmdHms "2020-2-29 23:59:59" = some ⟨2020, 2, 29, 23, 59, 59⟩ ∧
    strptimeYmdHms "2020-01-01  7:3:4" = some ⟨2020, 1, 1, 7, 3, 4⟩ ∧
    strptimeYmdHms "2019-02-29 00:00:00" = none ∧
    strptimeYmdHms "2020-13-01 00:00:00" = none ∧
    strptimeYmdHms "2020-01-01 24:00:00" = none ∧
    strptimeYmdHms "2020-01-01 00:00:60" = none ∧
    strptimeYmdHms "2020-01-01 00:00:00x" = none := by
  decide

/-! ## Dictionary lemmas -/

/-- Storing at a key makes lookup at that key find the stored value. -/
theorem dictGet_dictSet_self (d : Params) (k : String) (v : PyVal) :
    dictGet (dictSet d k v) k = some v := by
  induction d with
  | nil => simp [dictSet, dictGet]
  | cons p rest ih =>
    by_cases hp : p.1 = k
    · simp [dictSet, dictGet, hp]
    · simp [dictSet, dictGet, hp, ih]

/-- Storing at a key leaves lookup at every other key unchanged. -/
theorem dictGet_dictSet_ne (d : Params) (k : String) (v : PyVal) (j : String)
    (h : j ≠ k) :
    dictGet (dictSet d k v) j = dictGet d j := by
  induction d with
  | nil => simp [dictSet, dictGet, Ne.symm h]
  | cons p rest ih =>
    by_cases hp : p.1 = k
    · simp [dictSet, dictGet, hp, Ne.symm h]
    · simp [dictSet, dictGet, hp, ih]

/-- Storing at a key leaves the other entries, in their order, unchanged. -/
theorem filter_dictSet (d : Params) (k : String) (v : PyVal) :
    (dictSet d k v).filter (fun p => p.1 != k) = d.filter (fun p => p.1 != k) := by
  induction d with
  | nil => simp [dictSet]
  | cons p rest ih =>
    by_cases hp : p.1 = k
    · simp [dictSet, hp, List.filter_cons]
    · have hne : (p.1 != k) = true := by simp [hp]
      simp [dictSet, List.filter_cons, hp, hne, ih]

/-- Signer calls with clock readings in the same millisecond agree. -/
theorem prepare_eq_of_nonceOf_eq (c : Creds) (p : Params) {t t' : ℚ}
    (h : nonceOf t = nonceOf t') :
    prepare_request_data c p t = prepare_request_data c p t' := by
  unfold prepare_request_data
  rw [h]

/-! ## C1, C2, C3: the request signer -/

/-- C1: for every parameter dict and held credentials the signer returns the
dict with a freshly minted nonce stored under `nonce` — overwriting a
pre-existing entry in place and leaving every other entry, and their relative
order, unchanged — and a header set whose `Key` entry is the API key and
whose `Sign` entry is the hex HMAC-SHA512, keyed by the secret, of the
URL-encoded form of the final dict including the nonce. -/
theorem signer_output_spec (c : Creds) (params : Params) (t : ℚ) :
    dictGet (prepare_request_data c params t).1 "nonce" = some (.int (nonceOf t)) ∧
    (∀ k, k ≠ "nonce" → dictGet (prepare_request_data c params t).1 k = dictGet params k) ∧
    (prepare_request_data c params t).1.filter (fun p => p.1 != "nonce") =
      params.filter (fun p => p.1 != "nonce") ∧
    (prepare_request_data c params t).2.lookup "Key" = some c.api_key ∧
    (prepare_request_data c params t).2.lookup "Sign" =
      some (hexdigest (hmacSha512 c.secret
        (strBytes (urlencode (prepare_request_data c params t).1)))) := by
  refine ⟨dictGet_dictSet_self params "nonce" _,
          fun k hk => dictGet_dictSet_ne params "nonce" _ k hk,
          filter_dictSet params "nonce" _, ?_, ?_⟩ <;>
    simp [prepare_request_data, List.lookup]

/-- C2 counterexample: two immediately successive signings whose clock
readings fall in the same millisecond (a quarter of a millisecond apart)
produce the same nonce and the same signature, so the nonce is not strictly
increasing across successive calls. -/
theorem same_millisecond_repeats_nonce_and_sign :
    (1700000000 + 1/4000 : ℚ) < 1700000000 + 1/2000 ∧
    nonceOf (1700000000 + 1/4000) = nonceOf (1700000000 + 1/2000) ∧
    prepare_request_data demoCreds demoParams (1700000000 + 1/4000) =
      prepare_request_data demoCreds demoParams (1700000000 + 1/2000) := by
  refine ⟨by norm_num, by with_unfolding_all rfl, ?_⟩
  exact prepare_eq_of_nonceOf_eq demoCreds demoParams (by with_unfolding_all rfl)

/-- C2 amended: when the second call's clock reading is at least one
millisecond after the first, the nonce strictly increases (so it never
repeats or decreases while the clock only moves forward in full-millisecond
steps); at the concrete readings 1700000000 s and 1700000000.001 s the two
signatures differ as well. Calls landing in the same millisecond may repeat
the nonce and the signature. -/
theorem nonce_increases_across_milliseconds (c : Creds) (p : Params)
    (t t' : ℚ) (h : t + 1/1000 ≤ t') :
    nonceOf t < nonceOf t' ∧
    dictGet (prepare_request_data c p t).1 "nonce" = some (.int (nonceOf t)) ∧
    dictGet (prepare_request_data c p t').1 "nonce" = some (.int (nonceOf t')) ∧
    hexSign (prepare_request_data demoCreds demoParams 1700000000) ≠
      hexSign (prepare_request_data demoCreds demoParams (1700000000 + 1/1000)) := by
  refine ⟨?_, dictGet_dictSet_self p "nonce" _, dictGet_dictSet_self p "nonce" _, ?_⟩
  · have hfl : ((1000 * t).floor : ℚ) ≤ 1000 * t := by
      exact_mod_cast Rat.le_floor.mp (le_refl (1000 * t).floor)
    have hstep : (1000 : ℚ) * t + 1 ≤ 1000 * t' := by linarith
    have hle : (((1000 * t).floor + 1 : ℤ) : ℚ) ≤ 1000 * t' := by
      push_cast
      linarith
    exact Int.lt_iff_add_one_le.mpr (Rat.le_floor.mpr hle)
  · with_unfolding_all decide

/-- Witness for the amended C2 at readings one second apart. -/
theorem nonce_increases_witness :
    nonceOf 0 < nonceOf 1 ∧
    dictGet (prepare_request_data demoCreds demoParams 0).1 "nonce" =
      some (.int (nonceOf 0)) ∧
    dictGet (prepare_request_data demoCreds demoParams 1).1 "nonce" =
      some (.int (nonceOf 1)) ∧
    hexSign (prepare_request_data demoCreds demoParams 1700000000) ≠
      hexSign (prepare_request_data demoCreds demoParams (1700000000 + 1/1000)) :=
  nonce_increases_across_milliseconds demoCreds demoParams 0 1 (by norm_num)

/-- C3 counterexample: re-signing the identical dict, which already holds the
fixed nonce 42, at two different clock instants yields two different
signatures, because the signer overwrites the fixed nonce with the
clock-derived one. -/
theorem resigning_fixed_nonce_differs :
    hexSign (prepare_request_data demoCreds nonceParams 1700000000) ≠
      hexSign (prepare_request_data demoCreds nonceParams 1700000001) ∧
    dictGet (prepare_request_data demoCreds nonceParams 1700000000).1 "nonce" =
      some (.int 1700000000000) := by
  constructor
  · with_unfolding_all decide
  · with_unfolding_all rfl

/-- C3 amended: the `Sign` header is a deterministic function of the secret
and the exact byte encoding of the final parameter dict (the dict after the
nonce overwrite): equal secrets and equal URL-encoded final dicts give equal
signatures. -/
theorem sign_deterministic (c c' : Creds) (p p' : Params) (t t' : ℚ)
    (hsec : c.secret = c'.secret)
    (henc : urlencode (dictSet p "nonce" (.int (nonceOf t))) =
      urlencode (dictSet p' "nonce" (.int (nonceOf t')))) :
    hexSign (prepare_request_data c p t) = hexSign (prepare_request_data c' p' t') := by
  simp [prepare_request_data, hexSign, List.lookup, hsec, henc]

/-- Witness for the amended C3: two clock readings in the same millisecond
give the same encoded dict, hence the same signature. -/
theorem sign_deterministic_witness :
    hexSign (prepare_request_data demoCreds demoParams 1) =
      hexSign (prepare_request_data demoCreds demoParams (1 + 1/5000)) :=
  sign_deterministic demoCreds demoCreds demoParams demoParams 1 (1 + 1/5000)
    rfl (by with_unfolding_all rfl)

/-! ## C4: the ticker normalizer -/

/-- Equality against the int 1 is what `pyEq v (.int 1)` decides. -/
theorem pyEq_int_one (v : PyVal) : pyEq v (.int 1) = true ↔ v = .int 1 := by
  cases v <;> simp [pyEq]

/-- C4: the fixed ticker push message yields `is_frozen = false` and
`last` exactly one twentieth — in particular not the floating-point
approximation `0.05000000001` — and in general the callback's `is_frozen`
is true exactly when the raw eighth value is the int 1. -/
theorem ticker_push_exact_decimal :
    tickerConvert tickerArgs =
      some ⟨.str "BTC_ETH", 1/20, 51/1000, 49/1000, 1/100, 241/2, 24003/10,
            false, 3/50, 1/25⟩ ∧
    (1/20 : ℚ) ≠ 5000000001/100000000000 ∧
    (∀ args r, tickerConvert args = some r →
      (r.is_frozen = true ↔ args[7]? = some (.int 1))) := by
  refine ⟨by with_unfolding_all rfl, by norm_num, ?_⟩
  intro args r h
  simp only [tickerConvert, Option.bind_eq_bind', Option.bind_eq_some,
    Option.some.injEq] at h
  obtain ⟨cp, h0, last, h1, la, h2, hb, h3, chg, h4, bv, h5, qv, h6, a7, h7,
    hi, h8, lo, h9, hr⟩ := h
  subst hr
  rw [h7, pyEq_int_one]
  simp

/-! ## C5, C6: the order-book normalizer -/

/-- A converted modify item comes only from a modify-tagged entry. -/
theorem convEntry_mod_tag {e : BookEntry} {m : BookMod}
    (h : convEntry e = some (.mod m)) :
    entryTypeIs e "orderBookModify" = true := by
  by_cases h1 : entryTypeIs e "orderBookModify"
  · exact h1
  · exfalso
    by_cases h2 : entryTypeIs e "orderBookRemove" <;>
      simp [convEntry, h1, h2, Option.bind_eq_some] at h

/-- A converted remove item comes only from a remove-tagged entry. -/
theorem convEntry_rem_tag {e : BookEntry} {r : BookRem}
    (h : convEntry e = some (.rem r)) :
    entryTypeIs e "orderBookModify" = false ∧
      entryTypeIs e "orderBookRemove" = true := by
  by_cases h1 : entryTypeIs e "orderBookModify"
  · exfalso
    simp [convEntry, h1, Option.bind_eq_some] at h
  · refine ⟨by simp [h1], ?_⟩
    by_cases h2 : entryTypeIs e "orderBookRemove"
    · exact h2
    · exfalso
      simp [convEntry, h1, h2, Option.bind_eq_some] at h

/-- A converted trade item comes only from an untagged entry. -/
theorem convEntry_trade_tag {e : BookEntry} {t : BookTrade}
    (h : convEntry e = some (.trade t)) :
    entryTypeIs e "orderBookModify" = false ∧
      entryTypeIs e "orderBookRemove" = false := by
  by_cases h1 : entryTypeIs e "orderBookModify"
  · exfalso
    simp [convEntry, h1, Option.bind_eq_some] at h
  · by_cases h2 : entryTypeIs e "orderBookRemove"
    · exfalso
      simp [convEntry, h1, h2, Option.bind_eq_some] at h
    · exact ⟨by simp [h1], by simp [h2]⟩

/-- C5: when a batch normalizes, the handler is invoked exactly once, with
the modify entries, the remove entries and the remaining (trade) entries as
three sequences each preserving arrival order, and with the trailing keyword
metadata forwarded unchanged. -/
theorem order_book_partition_spec (args : List BookEntry)
    (ms : List BookMod) (rs : List BookRem) (ts : List BookTrade)
    (h : bookPartition args = some (ms, rs, ts)) :
    (∀ {K R : Type} (cb : List BookMod → List BookRem → List BookTrade → K → R)
        (kw : K), order_book_wrapper cb args kw = some (cb ms rs ts kw)) ∧
    ms = modsOf args ∧ rs = remsOf args ∧ ts = tradesOf args := by
  refine ⟨fun cb kw => by simp [order_book_wrapper, h], ?_⟩
  induction args generalizing ms rs ts with
  | nil =>
    simp only [bookPartition, Option.some.injEq, Prod.mk.injEq] at h
    obtain ⟨rfl, rfl, rfl⟩ := h
    simp [modsOf, remsOf, tradesOf]
  | cons e es ih =>
    simp only [bookPartition, Option.bind_eq_bind', Option.bind_eq_some] at h
    obtain ⟨it, hit, ⟨ms', rs', ts'⟩, hes, hmatch⟩ := h
    obtain ⟨hm, hr, ht⟩ := ih ms' rs' ts' hes
    cases it with
    | mod m =>
      simp only [Option.some.injEq, Prod.mk.injEq] at hmatch
      obtain ⟨rfl, rfl, rfl⟩ := hmatch
      have htag := convEntry_mod_tag hit
      refine ⟨?_, ?_, ?_⟩ <;>
        simp [modsOf, remsOf, tradesOf, List.filter_cons, List.filterMap_cons,
          htag, hit, hm, hr, ht]
    | rem r =>
      simp only [Option.some.injEq, Prod.mk.injEq] at hmatch
      obtain ⟨rfl, rfl, rfl⟩ := hmatch
      obtain ⟨htag1, htag2⟩ := convEntry_rem_tag hit
      refine ⟨?_, ?_, ?_⟩ <;>
        simp [modsOf, remsOf, tradesOf, List.filter_cons, List.filterMap_cons,
          htag1, htag2, hit, hm, hr, ht]
    | trade t =>
      simp only [Option.some.injEq, Prod.mk.injEq] at hmatch
      obtain ⟨rfl, rfl, rfl⟩ := hmatch
      obtain ⟨htag1, htag2⟩ := convEntry_trade_tag hit
      refine ⟨?_, ?_, ?_⟩ <;>
        simp [modsOf, remsOf, tradesOf, List.filter_cons, List.filterMap_cons,
          htag1, htag2, hit, hm, hr, ht]

/-- Witness for C5: the three-entry demonstration batch yields exactly one
modification, one removal and one trade, in that partition. -/
theorem order_book_partition_witness :
    (∀ {K R : Type} (cb : List BookMod → List BookRem → List BookTrade → K → R)
        (kw : K), order_book_wrapper cb demoBatch kw =
          some (cb demoMods demoRems demoTrades kw)) ∧
    demoMods = modsOf demoBatch ∧ demoRems = remsOf demoBatch ∧
      demoTrades = tradesOf demoBatch :=
  order_book_partition_spec demoBatch demoMods demoRems demoTrades
    (by with_unfolding_all rfl)

/-- C6: an entry whose conversion fails — a malformed or missing numeric
string, or a date not matching `%Y-%m-%d %H:%M:%S` — aborts normalization of
the whole batch: the caller's handler is not invoked at all, rather than the
malformed entry alone being dropped. -/
theorem malformed_entry_aborts_batch {K R : Type}
    (cb : List BookMod → List BookRem → List BookTrade → K → R)
    (args : List BookEntry) (kw : K) (e : BookEntry)
    (he : e ∈ args) (hbad : convEntry e = none) :
    order_book_wrapper cb args kw = none := by
  suffices h : bookPartition args = none by simp [order_book_wrapper, h]
  induction args with
  | nil => exact absurd he (List.not_mem_nil e)
  | cons a as ih =>
    rcases List.mem_cons.mp he with rfl | hmem
    · simp [bookPartition, hbad]
    · cases hca : convEntry a with
      | none => simp [bookPartition, hca]
      | some it => simp [bookPartition, hca, ih hmem]

/-- Witness for C6: one malformed date aborts the whole two-entry batch,
the well-formed first entry included. -/
theorem malformed_entry_witness :
    order_book_wrapper (fun ms rs ts (k : Nat) => (ms, rs, ts, k)) badBatch 0 = none :=
  malformed_entry_aborts_batch _ badBatch 0
    ⟨none, some [("tradeID", .str "78"), ("rate", .str "0.05"), ("amount", .str "1.5"),
                 ("total", .str "0.075"), ("date", .str "01/01/2020 00:00")]⟩
    (by simp [badBatch]) (by with_unfolding_all rfl)

/-! ## C7, C8, C10: construction and the credential loader -/

/-- C7: the constructor's checks, evaluated: no config path and a missing
argument fail at once, before anything else; an empty (or blank) api key is
rejected by the final check; but an empty secret is accepted — the secret
was encoded to bytes first, so its emptiness comparison against the `str`
`''` is always `False` — and construction succeeds, against the stated
invariant and the check's own evident intent. -/
theorem empty_secret_accepted :
    initPoloniex none none none = .error .missingArgs ∧
    initPoloniex none (some "k") none = .error .missingArgs ∧
    initPoloniex none none (some "s") = .error .missingArgs ∧
    initPoloniex none (some "") (some "s") = .error .noCredentials ∧
    initPoloniex none (some " ") (some "s") = .error .noCredentials ∧
    initPoloniex none (some "k") (some "") = .ok ⟨"k", []⟩ := by
  refine ⟨?_, ?_, ?_, ?_, ?_, ?_⟩ <;> with_unfolding_all rfl

/-- A file whose INI attempt fails and whose JSON attempt yields an object
returns the JSON `.get` results, whatever the source-file attempt would
say. -/
theorem getCredentials_json (f : ConfigFile) (r : Option String × Option String)
    (hIni : f.iniApiKey = none ∨ f.iniSecret = none) (hj : f.jsonDict = some r) :
    getCredentials f = .ok r := by
  cases hf : f.iniApiKey with
  | none => simp [getCredentials, hf, credsJson, hj]
  | some k =>
    have hs : f.iniSecret = none := by
      rcases hIni with h | h
      · rw [hf] at h
        exact absurd h (by simp)
      · exact h
    simp [getCredentials, hf, hs, credsJson, hj]

/-- C8: the loader tries INI, then JSON, then the Python source file, in
this order, stopping at the first success: an INI-parsable file missing the
secret falls through to JSON; when JSON also fails, to the source file; and
the combined configuration error is raised exactly when all three attempts
have failed. -/
theorem credential_fallback_order (f : ConfigFile) :
    (∀ k s, f.iniApiKey = some k → f.iniSecret = some s →
      getCredentials f = .ok (some k, some s)) ∧
    (∀ r, (f.iniApiKey = none ∨ f.iniSecret = none) → f.jsonDict = some r →
      getCredentials f = .ok r) ∧
    (∀ k s, (f.iniApiKey = none ∨ f.iniSecret = none) → f.jsonDict = none →
      f.pyApiKey = some k → f.pySecret = some s →
      getCredentials f = .ok (some k, some s)) ∧
    (∀ e, getCredentials f = .error e →
      (f.iniApiKey = none ∨ f.iniSecret = none) ∧ f.jsonDict = none ∧
        (f.pyApiKey = none ∨ f.pySecret = none)) := by
  rcases f with ⟨ia, is, jd, pa, ps⟩
  cases ia <;> cases is <;> cases jd <;> cases pa <;> cases ps <;>
    simp [getCredentials, credsJson, credsPy, credsFinal]

/-- C10: when the INI attempt fails and the file parses as a JSON object
lacking `apiKey` or `secret`, the loader returns `None` for the missing
value — with no source-file attempt and no combined configuration error —
and construction then fails with a different error: the `AttributeError` of
`None.encode('utf8')` when the secret is missing, the final credential
check's error when the api key is. -/
theorem json_missing_keys_no_fallback (f : ConfigFile)
    (hIni : f.iniApiKey = none ∨ f.iniSecret = none) :
    (∀ k, f.jsonDict = some (k, none) →
      getCredentials f = .ok (k, none) ∧
      initPoloniex (some f) none none = .error .attributeError) ∧
    (∀ s, f.jsonDict = some (none, some s) →
      getCredentials f = .ok (none, some s) ∧
      initPoloniex (some f) none none = .error .noCredentials) := by
  constructor
  · intro k hj
    have hg := getCredentials_json f (k, none) hIni hj
    exact ⟨hg, by simp [initPoloniex, hg]⟩
  · intro s hj
    have hg := getCredentials_json f (none, some s) hIni hj
    exact ⟨hg, by simp [initPoloniex, hg]⟩

/-- Witness for C10 at a concrete JSON-only file missing `secret`. -/
theorem json_missing_keys_witness :
    (∀ k, jsonOnlyFile.jsonDict = some (k, none) →
      getCredentials jsonOnlyFile = .ok (k, none) ∧
      initPoloniex (some jsonOnlyFile) none none = .error .attributeError) ∧
    (∀ s, jsonOnlyFile.jsonDict = some (none, some s) →
      getCredentials jsonOnlyFile = .ok (none, some s) ∧
      initPoloniex (some jsonOnlyFile) none none = .error .noCredentials) :=
  json_missing_keys_no_fallback jsonOnlyFile (Or.inl rfl)

/-! ## C9: the public REST commands -/

/-- C9 counterexample: `loan_orders` does not send `returnOrderBook`; its
command parameter is `returnLoanOrders`. -/
theorem loan_orders_command_not_order_book :
    dictGet (loan_orders_request (.str "BTC")).2 "command" =
      some (.str "returnLoanOrders") ∧
    some (PyVal.str "returnLoanOrders") ≠ some (PyVal.str "returnOrderBook") := by
  decide

/-- C9 amended: `trade_history` and `chart_data` send
`command: returnOrderBook` to the public endpoint regardless of their names
and docstrings; `loan_orders` sends `command: returnLoanOrders`. -/
theorem public_request_commands (pair start fin period currency : PyVal) :
    (trade_history_request pair start fin).1 = "public" ∧
    dictGet (trade_history_request pair start fin).2 "command" =
      some (.str "returnOrderBook") ∧
    (chart_data_request pair start fin period).1 = "public" ∧
    dictGet (chart_data_request pair start fin period).2 "command" =
      some (.str "returnOrderBook") ∧
    (loan_orders_request currency).1 = "public" ∧
    dictGet (loan_orders_request currency).2 "command" =
      some (.str "returnLoanOrders") := by
  refine ⟨rfl, ?_, rfl, ?_, rfl, ?_⟩ <;>
    simp [dictGet, trade_history_request, chart_data_request, loan_orders_request]

end Poloniex
